import Mathlib

/-!
Verification development for the runc container-lifecycle core excerpt:
the factory (`factory_linux.go`), the rootless determination and validator
(`configs/validate/rootless.go`), the rootless cgroup manager
(`cgroups/rootless/rootless.go`), the example-spec rootless conversion
(`specconv/example.go`), and the container listing (`list.go`).

The Go code is shallowly embedded: structures carry exactly the fields the
excerpt reads, machine integers become `Int`/`Nat`, fallible functions
return `Except`/`Option`, and the process environment (effective UID/GID,
filesystem, pipe contents) is passed explicitly.  Definitions whose Go
source lies outside the excerpt (the `configs` package accessors, the
resource-limits structure, the OCI spec structures) are marked
`Modelled from the spec:` in their doc comments.
-/

namespace Runc

/-- Namespace types, as in the configs package namespace list.  Only the
presence of `newuser` is ever inspected by the excerpt
(`config.Namespaces.Contains(configs.NEWUSER)`). -/
inductive NsType
  | newuser
  | newnet
  | newpid
  | newipc
  | newuts
  | newns
deriving DecidableEq, Repr

/-- An entry of `UidMappings`/`GidMappings` (configs.IDMap): container-side
first id, host-side first id, and the size of the mapped range.  Go `int`
fields become `Int`. -/
structure IDMap where
  containerID : Int
  hostID : Int
  size : Int
deriving DecidableEq, Repr

/-- A device rule.  Modelled from the spec: the device structure itself is
outside the excerpt; rootless validation only skips device fields wholesale,
so a minimal shape suffices. -/
structure Device where
  path : String
  allow : Bool
deriving DecidableEq, Repr

/-- Modelled from the spec: the resource-limits structure of the configs
package is outside the excerpt.  The spec describes it as a record compared
"field-by-field against a known all-default sentinel value (excluding
device-access rules)", so we model a representative record with both
device-access fields (names containing "Device") and ordinary limit
fields.  The all-default sentinel is the record with every field at its
zero value. -/
structure Resources where
  allowAllDevices : Bool := false
  devices : List Device := []
  memory : Int := 0
  memoryReservation : Int := 0
  memorySwap : Int := 0
  kernelMemory : Int := 0
  cpuShares : Int := 0
  cpuQuota : Int := 0
  cpuPeriod : Int := 0
  cpusetCpus : String := ""
  cpusetMems : String := ""
  pidsLimit : Int := 0
  blkioWeight : Int := 0
  blkioWeightDevice : List Device := []
  freezerState : String := ""
  oomKillDisable : Bool := false
  memorySwappiness : Int := 0
deriving DecidableEq, Repr

/-- The all-default sentinel value the validator compares against
(`reflect.Zero` of the resources type). -/
def Resources.zero : Resources := {}

/-- The field enumeration the rootless validator's reflection loop walks:
each field's Go name paired with whether that field differs from the
all-default sentinel.  The order follows the structure declaration. -/
def Resources.fieldsDiffer (r : Resources) : List (String × Bool) :=
  [ ("AllowAllDevices", r.allowAllDevices ≠ false)
  , ("Devices", r.devices ≠ [])
  , ("Memory", r.memory ≠ 0)
  , ("MemoryReservation", r.memoryReservation ≠ 0)
  , ("MemorySwap", r.memorySwap ≠ 0)
  , ("KernelMemory", r.kernelMemory ≠ 0)
  , ("CpuShares", r.cpuShares ≠ 0)
  , ("CpuQuota", r.cpuQuota ≠ 0)
  , ("CpuPeriod", r.cpuPeriod ≠ 0)
  , ("CpusetCpus", r.cpusetCpus ≠ "")
  , ("CpusetMems", r.cpusetMems ≠ "")
  , ("PidsLimit", r.pidsLimit ≠ 0)
  , ("BlkioWeight", r.blkioWeight ≠ 0)
  , ("BlkioWeightDevice", r.blkioWeightDevice ≠ [])
  , ("FreezerState", r.freezerState ≠ "")
  , ("OomKillDisable", r.oomKillDisable ≠ false)
  , ("MemorySwappiness", r.memorySwappiness ≠ 0) ]

/-- The cgroup configuration (configs.Cgroup) as read by the excerpt: an
optional explicit per-subsystem path mapping (`Cgroups.Paths`, read by the
rootless manager's `Apply`) and optional resource limits
(`Cgroups.Resources`, read by the rootless validator).  Modelled from the
spec: the full structure is outside the excerpt. -/
structure CgroupCfg where
  paths : Option (List (String × String)) := none
  resources : Option Resources := none
deriving DecidableEq, Repr

/-- A mount entry as read by the rootless validator: only the `Data` string
(comma-separated mount options) is inspected. -/
structure MountCfg where
  source : String := ""
  destination : String := ""
  device : String := ""
  data : String := ""
deriving DecidableEq, Repr

/-- configs.Config restricted to the fields the excerpt reads: the
namespace list, UID/GID mappings, mounts, cgroup configuration and labels. -/
structure Config where
  namespaces : List NsType := []
  uidMappings : List IDMap := []
  gidMappings : List IDMap := []
  mounts : List MountCfg := []
  cgroups : Option CgroupCfg := none
  labels : List String := []
deriving DecidableEq, Repr

/-- The host id a container-side id maps to under a mapping list: the first
mapping whose range covers the container id yields
`HostID + (containerID - m.ContainerID)`.  Modelled from the spec: the
configs package's mapping lookup is outside the excerpt; the spec speaks of
"the configured host-side root UID mapping". -/
def hostIDFromMapping (containerID : Int) : List IDMap → Option Int
  | [] => none
  | m :: ms =>
      if m.containerID ≤ containerID ∧ containerID ≤ m.containerID + m.size - 1 then
        some (m.hostID + (containerID - m.containerID))
      else
        hostIDFromMapping containerID ms

/-- Modelled from the spec: `config.HostUID()` is outside the excerpt.  With
a user namespace configured, the host UID of container root is looked up in
the UID mappings at container id 0, an error when no mapping covers it;
without a user namespace the host root UID is 0. -/
def Config.hostUID (c : Config) : Except String Int :=
  if c.namespaces.contains NsType.newuser then
    match hostIDFromMapping 0 c.uidMappings with
    | some u => Except.ok u
    | none => Except.error "user namespaces enabled, but no root user mapping found"
  else
    Except.ok 0

/-- Modelled from the spec: `config.HostGID()` is outside the excerpt;
symmetric to `Config.hostUID` over the GID mappings. -/
def Config.hostGID (c : Config) : Except String Int :=
  if c.namespaces.contains NsType.newuser then
    match hostIDFromMapping 0 c.gidMappings with
    | some g => Except.ok g
    | none => Except.error "user namespaces enabled, but no root group mapping found"
  else
    Except.ok 0

/-- The mapping-shape test of `isRootless`:
`len(mappings) != 1 || mappings[0].Size != 1`. -/
def badMapping : List IDMap → Bool
  | [m] => m.size ≠ 1
  | _ => true

/-- `isRootless` from factory_linux.go, with the invoking effective UID and
GID (`os.Geteuid()`, `os.Getegid()`) passed explicitly.  The check order
mirrors the source: host-UID lookup, then (for non-root callers) the user
namespace and root-UID checks, then the host-GID lookup, then the root-GID
check and the single-size-1 mapping checks. -/
def isRootless (euid egid : Int) (c : Config) : Except String Bool :=
  match c.hostUID with
  | Except.error e => Except.error e
  | Except.ok rootuid =>
    if euid ≠ 0 ∧ ¬ c.namespaces.contains NsType.newuser then
      Except.error "rootless containers require user namespaces"
    else if euid ≠ 0 ∧ rootuid ≠ euid then
      Except.error "rootless containers cannot map container root to a different host user"
    else
      match c.hostGID with
      | Except.error e => Except.error e
      | Except.ok rootgid =>
        if euid ≠ 0 ∧ rootgid ≠ egid then
          Except.error "rootless containers cannot map container root to a different host group"
        else if euid ≠ 0 ∧ badMapping c.uidMappings then
          Except.error "rootless containers cannot map more than one user"
        else if euid ≠ 0 ∧ badMapping c.gidMappings then
          Except.error "rootless containers cannot map more than one group"
        else
          Except.ok (decide (euid ≠ 0))

/-- Go `strings.HasPrefix`, over the character lists of the strings. -/
def strHasPrefix (s pre : String) : Bool :=
  pre.data.isPrefixOf s.data

/-- Go `strings.Split(s, sep)` for a single-character separator, over the
character lists of the strings (splitting the empty string yields `[""]`,
as in Go). -/
def strSplitOnChar (sep : Char) (s : String) : List String :=
  (s.data.splitOn sep).map String.mk

/-- The per-option test of the rootless validator's mount check: an option
starting with `uid=` must be exactly `uid=0`, and likewise for `gid=`. -/
def mountOptCheck (opt : String) : Option String :=
  if strHasPrefix opt "uid=" ∧ opt ≠ "uid=0" then
    some "cannot specify uid= mount options in rootless containers where argument isn't 0"
  else if strHasPrefix opt "gid=" ∧ opt ≠ "gid=0" then
    some "cannot specify gid= mount options in rootless containers where argument isn't 0"
  else
    none

/-- The first error produced by a list of checks, `none` when all pass. -/
def firstErr (f : α → Option String) : List α → Option String
  | [] => none
  | x :: xs =>
    match f x with
    | some e => some e
    | none => firstErr f xs

/-- `RootlessValidator.mount`: every mount's `Data` is split on commas and
each option must pass the `uid=`/`gid=` test. -/
def rootlessMountCheck (c : Config) : Option String :=
  firstErr (fun m => firstErr mountOptCheck (strSplitOnChar ',' m.data)) c.mounts

/-- Whether `pat` occurs as a contiguous substring of `s`
(Go `strings.Contains`). -/
def strContainsSub (s pat : String) : Bool :=
  go s.data
where
  go : List Char → Bool
    | [] => pat.data.isPrefixOf []
    | c :: cs => pat.data.isPrefixOf (c :: cs) || go cs

/-- `RootlessValidator.cgroup` applied to the optional cgroup configuration:
nothing set at all passes; otherwise the resources are compared against the
all-default sentinel, and the first non-default field whose name does not
contain "Device" is an error. -/
def rootlessCgroupCheck (cgroups : Option CgroupCfg) : Option String :=
  match cgroups with
  | none => none
  | some cg =>
    match cg.resources with
    | none => none
    | some r =>
      if r = Resources.zero then
        none
      else
        firstErr
          (fun f =>
            if ¬ (strContainsSub f.1 "Device") ∧ f.2 then
              some ("cannot specify resource limits in rootless container: field " ++ f.1 ++ " is non-default")
            else
              none)
          r.fieldsDiffer

/-- `RootlessValidator.Validate`: a nil configuration passes; otherwise the
mount check runs first, then the cgroup check. -/
def rootlessValidate (c : Option Config) : Option String :=
  match c with
  | none => none
  | some cfg =>
    match rootlessMountCheck cfg with
    | some e => some e
    | none => rootlessCgroupCheck cfg.cgroups

/-- The freezer state passed to `Freeze`.  Modelled from the spec: the
configs package's freezer type is outside the excerpt. -/
inductive FreezerState
  | undefined
  | frozen
  | thawed
deriving DecidableEq, Repr

/-- The rootless cgroup manager (cgroups/rootless/rootless.go): the cgroup
configuration and the resolved per-subsystem paths it was constructed
with. -/
structure RlManager where
  cgroups : Option CgroupCfg := none
  paths : Option (List (String × String)) := none
deriving DecidableEq, Repr

/-- `rootless.Manager.Apply`: nothing to do without cgroup settings; an
explicit (non-nil) `Cgroups.Paths` mapping cannot be honoured. -/
def RlManager.applyPid (m : RlManager) (_pid : Int) : Option String :=
  match m.cgroups with
  | none => none
  | some cg =>
    match cg.paths with
    | some _ => some "cannot change cgroup path in rootless container"
    | none => none

/-- `rootless.Manager.Set`: a no-op, the rootless validator already rejected
anything incompatible. -/
def RlManager.setCfg (_m : RlManager) (_c : Config) : Option String :=
  none

/-- `rootless.Manager.Freeze`: unsupported without privilege. -/
def RlManager.freeze (_m : RlManager) (_st : FreezerState) : Option String :=
  some "cannot use freezer cgroup in rootless container"

/-- `rootless.Manager.Destroy`: a no-op, no hierarchy was created. -/
def RlManager.destroy (_m : RlManager) : Option String :=
  none

/-- `rootless.Manager.GetPaths`. -/
def RlManager.getPaths (m : RlManager) : Option (List (String × String)) :=
  m.paths

/-- The closed set of cgroup-manager constructors a LinuxFactory can hold in
`NewCgroupsManager` (Cgroupfs, SystemdCgroups, RootlessCgroups), modelled as
the tagged variant the spec's design notes call for. -/
inductive ManagerKind
  | cgroupfs
  | systemd
  | rootless
deriving DecidableEq, Repr

/-- LinuxFactory restricted to the fields the modelled operations read: the
state root directory and the currently configured cgroup-manager
constructor. -/
structure Factory where
  root : String
  newCgroupsManager : ManagerKind
deriving DecidableEq, Repr

/-- The error kinds of the generic error type
(InvalidIdFormat, IdInUse, ConfigInvalid, ContainerNotExists, SystemError). -/
inductive ErrCause
  | invalidIdFormat
  | idInUse
  | configInvalid
  | containerNotExists
  | systemError
deriving DecidableEq, Repr

/-- The container value `Create`/`Load` return, restricted to the fields the
claims inspect. -/
structure ContainerModel where
  id : String
  root : String
  config : Config
  managerKind : ManagerKind
  rootless : Bool
deriving DecidableEq, Repr

/-- Whether a character is accepted by the id pattern `^[\w+-\.]+$`
(Go RE2: `\w` is ASCII alphanumeric plus underscore, and `+-\.` is the
range from `+` to `.`, i.e. `+`, `,`, `-`, `.`). -/
def idChar (c : Char) : Bool :=
  c.isAlphanum || c = '_' || c = '+' || c = ',' || c = '-' || c = '.'

/-- `idRegex.MatchString`: the anchored pattern `^[\w+-\.]+$` matches
exactly the non-empty strings of `idChar` characters. -/
def idRegexMatch (id : String) : Bool :=
  ¬ id.data.isEmpty && id.data.all idChar

/-- `LinuxFactory.validateID`: the pattern is checked first, then the
length bound `maxIdLen = 1024`. -/
def validateID (id : String) : Option ErrCause :=
  if ¬ idRegexMatch id then
    some ErrCause.invalidIdFormat
  else if id.data.length > 1024 then
    some ErrCause.invalidIdFormat
  else
    none

/-- The filesystem as `Create` observes it: the set of existing container
directories (`os.Stat` on `<root>/<id>`), as a list of paths.  `MkdirAll`
is modelled as always succeeding by prepending the path. -/
abbrev FSState := List String

instance {ε α} [DecidableEq ε] [DecidableEq α] : DecidableEq (Except ε α) := fun a b =>
  match a, b with
  | Except.ok x, Except.ok y =>
    if h : x = y then Decidable.isTrue (h ▸ rfl)
    else Decidable.isFalse (fun hh => h (Except.ok.inj hh))
  | Except.error x, Except.error y =>
    if h : x = y then Decidable.isTrue (h ▸ rfl)
    else Decidable.isFalse (fun hh => h (Except.error.inj hh))
  | Except.ok _, Except.error _ => Decidable.isFalse (fun hh => Except.noConfusion hh)
  | Except.error _, Except.ok _ => Decidable.isFalse (fun hh => Except.noConfusion hh)

/-- The full outcome of a `Create` call: the returned container or error,
the factory as left behind (its `NewCgroupsManager` may have been
overwritten), and the filesystem as left behind. -/
structure CreateOutcome where
  res : Except ErrCause ContainerModel
  factory : Factory
  fs : FSState
deriving DecidableEq, Repr

/-- `LinuxFactory.Create`, with the structural validator `V`
(`l.Validator.Validate`, outside the excerpt and side-effect free per the
spec) and the invoking effective UID/GID passed explicitly.  The check
order mirrors the source: root non-empty, id, structural validation,
rootless determination, rootless validation, directory-existence check,
`MkdirAll`, then `RootlessCgroups(l)` when rootless, then container
construction with the (possibly overwritten) manager constructor. -/
def createC (V : Config → Bool) (l : Factory) (fs : FSState) (euid egid : Int)
    (id : String) (config : Config) : CreateOutcome :=
  if l.root = "" then
    ⟨Except.error ErrCause.configInvalid, l, fs⟩
  else
    match validateID id with
    | some e => ⟨Except.error e, l, fs⟩
    | none =>
      if ¬ V config then
        ⟨Except.error ErrCause.configInvalid, l, fs⟩
      else
        match isRootless euid egid config with
        | Except.error _ => ⟨Except.error ErrCause.configInvalid, l, fs⟩
        | Except.ok rootless =>
          if rootless ∧ (rootlessValidate (some config)).isSome then
            ⟨Except.error ErrCause.configInvalid, l, fs⟩
          else
            let containerRoot := l.root ++ "/" ++ id
            if containerRoot ∈ fs then
              ⟨Except.error ErrCause.idInUse, l, fs⟩
            else
              let fs' : FSState := containerRoot :: fs
              let l' : Factory :=
                if rootless then { l with newCgroupsManager := ManagerKind.rootless } else l
              ⟨Except.ok
                { id := id
                , root := containerRoot
                , config := config
                , managerKind := l'.newCgroupsManager
                , rootless := rootless }, l', fs'⟩

/-- The persisted state snapshot (`state.json`), restricted to the fields
`Load` copies into the reconstructed container. -/
structure PersistedState where
  stateID : String
  initProcessPid : Int
  initProcessStartTime : String
  externalDescriptors : List String := []
  config : Config
  cgroupPaths : List (String × String) := []
  rootless : Bool
  created : String := ""
deriving DecidableEq, Repr

/-- `LinuxFactory.Load`, with the state store (path to decoded `state.json`)
passed explicitly.  A missing state file is `ContainerNotExists`.  The
cgroup manager is constructed from the factory's current
`NewCgroupsManager`.  The post-construction `refreshState` reconciliation
is outside the excerpt and not modelled; the claims below only concern the
constructed container. -/
def loadC (l : Factory) (states : List (String × PersistedState)) (id : String) :
    Except ErrCause ContainerModel :=
  if l.root = "" then
    Except.error ErrCause.configInvalid
  else
    match states.lookup (l.root ++ "/" ++ id) with
    | none => Except.error ErrCause.containerNotExists
    | some st =>
      Except.ok
        { id := id
        , root := l.root ++ "/" ++ id
        , config := st.config
        , managerKind := l.newCgroupsManager
        , rootless := st.rootless }

/-- The kind of initer `newContainerInit` constructs
(`linuxSetnsInit` or `linuxStandardInit`). -/
inductive IniterKind
  | standard
  | setns
deriving DecidableEq, Repr

/-- The outcome of `i.Init(s)` in the child: successful `exec` (which never
returns to the synchronisation logic), an ordinary error, or a panic. -/
inductive InitOutcome
  | execed
  | failed (msg : String)
  | panicked (msg : String)
deriving DecidableEq, Repr

/-- A message written over the init pipe: the preliminary sync token
(`syncT{procError}`) or the structured system-error record. -/
inductive PipeMsg
  | syncToken
  | systemError (msg : String)
deriving DecidableEq, Repr

/-- One run of `StartInitialization` in the child, as determined by its
environment: the result of `strconv.Atoi` on `_LIBCONTAINER_INITPIPE`
(`none` when unparsable), the outcome of `newContainerInit` (which decodes
the bootstrap data and yields an initer of some kind, or fails), and the
outcome of the initer's `Init`. -/
structure InitRun where
  pipeFdParse : Option Nat
  initerResult : Except String IniterKind
  initOutcome : InitOutcome
deriving DecidableEq, Repr

/-- What a run of `StartInitialization` leaves behind: the messages written
to the pipe in order, whether the pipe was closed, and whether the process
image was replaced by `exec`. -/
structure InitResult where
  written : List PipeMsg
  closed : Bool
  execed : Bool
deriving DecidableEq, Repr

/-- The error text the deferred handler sends for a given run that did not
exec: the `newContainerInit` error, the `Init` error, or the recovered
panic wrapped as "panic from initialization: ...". -/
def initFinalErr (run : InitRun) : String :=
  match run.initerResult with
  | Except.error e => e
  | Except.ok _ =>
    match run.initOutcome with
    | InitOutcome.failed m => m
    | InitOutcome.panicked m => "panic from initialization: " ++ m
    | InitOutcome.execed => ""

/-- The preliminary sync token is written exactly when the constructed
initer is the standard one (`i.(*linuxStandardInit)` succeeds; `i` is nil
when `newContainerInit` failed). -/
def syncPrefix (run : InitRun) : List PipeMsg :=
  match run.initerResult with
  | Except.ok IniterKind.standard => [PipeMsg.syncToken]
  | _ => []

/-- `LinuxFactory.StartInitialization` (factory_linux.go): when the pipe-fd
environment variable fails to parse, the function returns that error before
the deferred handlers are installed, so nothing is written and the pipe is
not closed.  Otherwise the deferred recover converts a panic into the error
value, and the outer defer writes the sync token (standard initer only)
followed by the structured system error, then closes the pipe; on a
successful `exec` no deferred code runs.  Pipe writes themselves are
modelled as succeeding. -/
def startInitialization (run : InitRun) : InitResult :=
  match run.pipeFdParse with
  | none => ⟨[], false, false⟩
  | some _ =>
    match run.initerResult with
    | Except.error e => ⟨[PipeMsg.systemError e], true, false⟩
    | Except.ok k =>
      match run.initOutcome with
      | InitOutcome.execed => ⟨[], false, true⟩
      | InitOutcome.failed m =>
          ⟨(if k = IniterKind.standard then [PipeMsg.syncToken] else [])
            ++ [PipeMsg.systemError m], true, false⟩
      | InitOutcome.panicked m =>
          ⟨(if k = IniterKind.standard then [PipeMsg.syncToken] else [])
            ++ [PipeMsg.systemError ("panic from initialization: " ++ m)], true, false⟩

/-- One row of the listing output (`containerState` in list.go). -/
structure Row where
  id : String
  pid : Int
  status : String
  bundle : String
  created : String
  annots : List (String × String)
  owner : String
deriving DecidableEq, Repr

/-- What `container.Status()` and `container.State()` yield for a container
that `factory.Load` returned. -/
structure LoadedContainer where
  statusRes : Except String String
  stateRes : Except String PersistedState
deriving DecidableEq, Repr

/-- One entry of the factory root directory as `getContainers` observes it:
its name, whether it is a directory, the owning uid, the result of
`user.LookupUid` on that uid (`none` on lookup failure), and the result of
`factory.Load` on the name. -/
structure DirEntry where
  name : String
  isDir : Bool
  uid : Nat
  lookupName : Option String
  loadRes : Except String LoadedContainer
deriving DecidableEq, Repr

/-- The owner column: the looked-up user name, or on lookup failure the Go
conversion `string(stat.Uid)` (the uid read as a Unicode code point). -/
def ownerName (e : DirEntry) : String :=
  match e.lookupName with
  | some n => n
  | none => String.singleton (Char.ofNat e.uid)

/-- Modelled from the spec: `utils.Annotations` is outside the excerpt; per
the spec the row carries the bundle path and the user annotations, both
recovered from the config labels of the form `key=value`, where the
`bundle` key is the bundle path. -/
def annotationsOf (labels : List String) : String × List (String × String) :=
  labels.foldl
    (fun acc l =>
      match l.splitOn "=" with
      | key :: rest =>
        if rest.isEmpty then acc
        else
          let value := String.intercalate "=" rest
          if key = "bundle" then (value, acc.2) else (acc.1, acc.2 ++ [(key, value)])
      | [] => acc)
    ("", [])

/-- The placeholder row appended when `factory.Load` fails for an entry:
status "-", pid -1, bundle "-". -/
def placeholderRow (e : DirEntry) : Row :=
  { id := e.name
  , pid := -1
  , status := "-"
  , bundle := "-"
  , created := ""
  , annots := []
  , owner := ownerName e }

/-- The row built from a successfully loaded container. -/
def fullRow (e : DirEntry) (status : String) (st : PersistedState) : Row :=
  { id := st.stateID
  , pid := st.initProcessPid
  , status := status
  , bundle := (annotationsOf st.config.labels).1
  , created := st.created
  , annots := (annotationsOf st.config.labels).2
  , owner := ownerName e }

/-- `getContainers` (list.go): non-directories are skipped; a `Load`
failure yields the placeholder row and the iteration continues; a
`Status()` or `State()` failure aborts the whole listing with that error;
otherwise the full row is appended. -/
def getContainers : List DirEntry → Except String (List Row)
  | [] => Except.ok []
  | e :: rest =>
    if e.isDir = false then
      getContainers rest
    else
      match e.loadRes with
      | Except.error _ =>
        match getContainers rest with
        | Except.error err => Except.error err
        | Except.ok rows => Except.ok (placeholderRow e :: rows)
      | Except.ok lc =>
        match lc.statusRes with
        | Except.error err => Except.error err
        | Except.ok status =>
          match lc.stateRes with
          | Except.error err => Except.error err
          | Except.ok st =>
            match getContainers rest with
            | Except.error err => Except.error err
            | Except.ok rows => Except.ok (fullRow e status st :: rows)

/-- An OCI spec UID/GID mapping (specs.IDMapping, uint32 fields). -/
structure SpecIDMapping where
  hostID : Nat
  containerID : Nat
  size : Nat
deriving DecidableEq, Repr

/-- An OCI spec mount (specs.Mount), restricted to the fields `ToRootless`
touches. -/
structure SpecMount where
  destination : String := ""
  mountType : String := ""
  source : String := ""
  options : List String := []
deriving DecidableEq, Repr

/-- The Linux section of an OCI spec, restricted to the fields `ToRootless`
touches.  Namespace types are their spec strings
(`specs.UserNamespace = "user"`); resources are kept opaque since
`ToRootless` only discards them. -/
structure SpecLinux where
  namespaces : List String := []
  uidMappings : List SpecIDMapping := []
  gidMappings : List SpecIDMapping := []
  resources : Option Resources := none
deriving DecidableEq, Repr

/-- An OCI spec (specs.Spec), restricted to the fields `ToRootless`
touches. -/
structure OciSpec where
  mounts : List SpecMount := []
  linux : SpecLinux := {}
deriving DecidableEq, Repr

/-- `specconv.ToRootless`, with the invoking effective UID/GID passed
explicitly: appends a user namespace, replaces the UID/GID mappings with
the single size-1 identity-to-invoker mapping, strips every mount option
carrying a `uid=` or `gid=` prefix, and discards the resource limits. -/
def toRootless (euid egid : Nat) (s : OciSpec) : OciSpec :=
  { mounts :=
      s.mounts.map fun m =>
        { m with options := m.options.filter fun o => ¬ strHasPrefix o "gid=" ∧ ¬ strHasPrefix o "uid=" }
  , linux :=
      { s.linux with
        namespaces := s.linux.namespaces ++ ["user"]
      , uidMappings := [{ hostID := euid, containerID := 0, size := 1 }]
      , gidMappings := [{ hostID := egid, containerID := 0, size := 1 }]
      , resources := none } }

/-- The configs-package mapping a spec mapping translates to. -/
def toIDMap (m : SpecIDMapping) : IDMap :=
  { containerID := Int.ofNat m.containerID
  , hostID := Int.ofNat m.hostID
  , size := Int.ofNat m.size }

/-! ## Helper lemmas -/

theorem exists_error_iff (r : Except String Bool) :
    (∃ e, r = Except.error e) ↔ ∀ b, r ≠ Except.ok b := by
  cases r <;> simp

/-- What `isRootless` returning without error says: both host-id lookups
succeeded, the returned flag is exactly "the caller is not root", and a
non-root caller passed the user-namespace, ownership and mapping-shape
checks. -/
theorem isRootless_ok_iff (euid egid : Int) (c : Config) (b : Bool) :
    isRootless euid egid c = Except.ok b ↔
      ∃ u, c.hostUID = Except.ok u ∧
      ∃ g, c.hostGID = Except.ok g ∧
      b = decide (euid ≠ 0) ∧
      (euid ≠ 0 →
        c.namespaces.contains NsType.newuser = true ∧ u = euid ∧ g = egid ∧
        badMapping c.uidMappings = false ∧ badMapping c.gidMappings = false) := by
  cases hu : c.hostUID with
  | error e => simp [isRootless, hu]
  | ok u =>
    cases hg : c.hostGID with
    | error e =>
      simp only [isRootless, hu, hg]
      split_ifs with h1 h2 <;> simp_all
    | ok g =>
      simp only [isRootless, hu, hg]
      split_ifs with h1 h2 h3 h4 h5 <;>
        constructor <;> intro h <;> simp_all

/-! ## Test fixtures -/

/-- A well-formed rootless configuration for the invoking user 1000:1000,
as in the spec's example scenario. -/
def rootlessDemoCfg : Config :=
  { namespaces := [NsType.newuser]
  , uidMappings := [{ containerID := 0, hostID := 1000, size := 1 }]
  , gidMappings := [{ containerID := 0, hostID := 1000, size := 1 }] }

/-- A configuration with a user namespace but no UID/GID mappings, so the
host-side root mapping lookup fails. -/
def noRootMapCfg : Config := { namespaces := [NsType.newuser] }

/-- A trivial host-namespace configuration (no user namespace, no
mappings). -/
def plainCfg : Config := {}

/-! ## C1 -/

/-- C1 (amended): `isRootless` implements the claimed case analysis except
that an invoking effective UID of 0 yields `(false, nil)` only when the
host-side root UID and GID lookups succeed; when a lookup fails (a user
namespace is configured but no mapping covers container root), its error is
returned even for UID 0.  The non-root cases are as claimed: missing user
namespace, host-side root UID different from the effective UID, more than
one mapping or a mapping of size other than 1, and host-side root GID
different from the effective GID each yield an error, and otherwise the
result is `(true, nil)`. -/
theorem c1_isRootless_cases (euid egid : Int) (c : Config) :
    (euid = 0 → (∃ u, c.hostUID = Except.ok u) → (∃ g, c.hostGID = Except.ok g) →
      isRootless euid egid c = Except.ok false)
  ∧ (euid = 0 → ((∃ e, c.hostUID = Except.error e) ∨ (∃ e, c.hostGID = Except.error e)) →
      ∃ e, isRootless euid egid c = Except.error e)
  ∧ (euid ≠ 0 → c.namespaces.contains NsType.newuser = false →
      ∃ e, isRootless euid egid c = Except.error e)
  ∧ (euid ≠ 0 → ∀ u, c.hostUID = Except.ok u → u ≠ euid →
      ∃ e, isRootless euid egid c = Except.error e)
  ∧ (euid ≠ 0 → (badMapping c.uidMappings = true ∨ badMapping c.gidMappings = true) →
      ∃ e, isRootless euid egid c = Except.error e)
  ∧ (euid ≠ 0 → ∀ g, c.hostGID = Except.ok g → g ≠ egid →
      ∃ e, isRootless euid egid c = Except.error e)
  ∧ (euid ≠ 0 → c.namespaces.contains NsType.newuser = true →
      c.hostUID = Except.ok euid → c.hostGID = Except.ok egid →
      badMapping c.uidMappings = false → badMapping c.gidMappings = false →
      isRootless euid egid c = Except.ok true) := by
  refine ⟨?_, ?_, ?_, ?_, ?_, ?_, ?_⟩
  · rintro h0 ⟨u, hu⟩ ⟨g, hg⟩
    rw [isRootless_ok_iff]
    exact ⟨u, hu, g, hg, by simp [h0], fun hne => absurd h0 hne⟩
  · rintro h0 (⟨e, he⟩ | ⟨e, he⟩) <;>
      · rw [exists_error_iff]
        intro b hb
        rw [isRootless_ok_iff] at hb
        obtain ⟨u, hu, g, hg, -, -⟩ := hb
        simp_all
  · intro hne hcon
    rw [exists_error_iff]
    intro b hb
    rw [isRootless_ok_iff] at hb
    obtain ⟨u, hu, g, hg, -, himp⟩ := hb
    have := (himp hne).1
    simp_all
  · intro hne u hu hneq
    rw [exists_error_iff]
    intro b hb
    rw [isRootless_ok_iff] at hb
    obtain ⟨u', hu', g, hg, -, himp⟩ := hb
    have := (himp hne).2.1
    simp_all
  · intro hne hbad
    rw [exists_error_iff]
    intro b hb
    rw [isRootless_ok_iff] at hb
    obtain ⟨u, hu, g, hg, -, himp⟩ := hb
    have h1 := (himp hne).2.2.2.1
    have h2 := (himp hne).2.2.2.2
    rcases hbad with h | h <;> simp_all
  · intro hne g hg hneq
    rw [exists_error_iff]
    intro b hb
    rw [isRootless_ok_iff] at hb
    obtain ⟨u, hu, g', hg', -, himp⟩ := hb
    have := (himp hne).2.2.1
    simp_all
  · intro h1 h2 h3 h4 h5 h6
    rw [isRootless_ok_iff]
    exact ⟨euid, h3, egid, h4, by simp [h1], fun _ => ⟨h2, rfl, rfl, h5, h6⟩⟩

/-- C1 counterexample: with invoking effective UID 0 and a configuration
that enables a user namespace without any root mapping, `isRootless`
returns an error, not `(false, nil)` — refuting "effective UID 0 implies
result (false, nil) regardless of configuration". -/
theorem c1_isRootless_euid0_counterexample :
    isRootless 0 0 noRootMapCfg =
      Except.error "user namespaces enabled, but no root user mapping found" := by
  decide

/-- C1 witness: the all-checks-pass case at a concrete input. -/
theorem c1_isRootless_cases_witness :
    isRootless 1000 1000 rootlessDemoCfg = Except.ok true := by
  exact (c1_isRootless_cases 1000 1000 rootlessDemoCfg).2.2.2.2.2.2
    (by decide) (by decide) (by decide) (by decide) (by decide) (by decide)

/-! ## C7 -/

/-- C7 (amended): `isRootless` is a pure function of the invoking effective
UID and GID, the UID mappings, the GID mappings, and the presence of a
user-namespace entry — and of nothing else in the configuration. -/
theorem c7_isRootless_frame (euid egid : Int) (c1 c2 : Config)
    (h1 : c1.uidMappings = c2.uidMappings)
    (h2 : c1.gidMappings = c2.gidMappings)
    (h3 : c1.namespaces.contains NsType.newuser = c2.namespaces.contains NsType.newuser) :
    isRootless euid egid c1 = isRootless euid egid c2 := by
  unfold isRootless Config.hostUID Config.hostGID
  rw [h1, h2, h3]

/-- C7 counterexample: two configurations with identical UID and GID
mappings, evaluated under the same effective UID and GID, on which
`isRootless` disagrees (one has a user-namespace entry, the other does
not) — refuting "a function of only (effective UID, effective GID, UID
mappings, GID mappings)". -/
theorem c7_isRootless_counterexample :
    ({ rootlessDemoCfg with namespaces := [] } : Config).uidMappings = rootlessDemoCfg.uidMappings
  ∧ ({ rootlessDemoCfg with namespaces := [] } : Config).gidMappings = rootlessDemoCfg.gidMappings
  ∧ isRootless 1000 1000 { rootlessDemoCfg with namespaces := [] } ≠
      isRootless 1000 1000 rootlessDemoCfg := by
  decide

/-- C7 witness: two configurations differing only in mounts, cgroups and
labels give the same `isRootless` result. -/
theorem c7_isRootless_frame_witness :
    isRootless 1000 1000 rootlessDemoCfg =
      isRootless 1000 1000
        { rootlessDemoCfg with
          mounts := [{ data := "uid=5" }]
        , cgroups := some { resources := some { memory := 7 } }
        , labels := ["a=b"] } := by
  exact c7_isRootless_frame 1000 1000 _ _ (by decide) (by decide) (by decide)

/-! ## C5 -/

theorem firstErr_isSome_iff (f : α → Option String) (l : List α) :
    (firstErr f l).isSome = true ↔ ∃ x ∈ l, (f x).isSome = true := by
  induction l with
  | nil => simp [firstErr]
  | cons a as ih =>
    cases h : f a with
    | some e => simp [firstErr, h]
    | none => simp [firstErr, h, ih]

theorem mountOptCheck_isSome (opt : String) :
    (mountOptCheck opt).isSome = true ↔
      ((strHasPrefix opt "uid=" = true ∧ opt ≠ "uid=0") ∨
       (strHasPrefix opt "gid=" = true ∧ opt ≠ "gid=0")) := by
  unfold mountOptCheck
  split_ifs <;> simp_all
  tauto

theorem rootlessCgroupCheck_isSome (cgroups : Option CgroupCfg) :
    (rootlessCgroupCheck cgroups).isSome = true ↔
      ∃ cg, cgroups = some cg ∧ ∃ r, cg.resources = some r ∧
        (r.memory ≠ 0 ∨ r.memoryReservation ≠ 0 ∨ r.memorySwap ≠ 0 ∨
         r.kernelMemory ≠ 0 ∨ r.cpuShares ≠ 0 ∨ r.cpuQuota ≠ 0 ∨
         r.cpuPeriod ≠ 0 ∨ r.cpusetCpus ≠ "" ∨ r.cpusetMems ≠ "" ∨
         r.pidsLimit ≠ 0 ∨ r.blkioWeight ≠ 0 ∨ r.freezerState ≠ "" ∨
         r.oomKillDisable ≠ false ∨ r.memorySwappiness ≠ 0) := by
  cases cgroups with
  | none => simp [rootlessCgroupCheck]
  | some cg =>
    cases hr : cg.resources with
    | none => simp [rootlessCgroupCheck, hr]
    | some r =>
      by_cases hz : r = Resources.zero
      · subst hz
        simp +decide [rootlessCgroupCheck, hr, Resources.zero]
      · simp +decide [rootlessCgroupCheck, hr, hz, firstErr_isSome_iff,
          Resources.fieldsDiffer, strContainsSub, strContainsSub.go]

/-- C5 (confirmed): `RootlessValidator.Validate` returns an error if and
only if some mount option (an entry of the comma-split `Data` string) has
the form `uid=N` or `gid=N` with `N` other than `0`, or some non-device
field of the resource-limits structure differs from the all-default
sentinel; in every other case — including a nil configuration and a nil
resource-limits structure — it returns nil. -/
theorem c5_rootlessValidate_iff :
    rootlessValidate none = none
  ∧ ∀ c : Config,
      ((rootlessValidate (some c)).isSome = true ↔
        ((∃ m ∈ c.mounts, ∃ opt ∈ strSplitOnChar ',' m.data,
            (strHasPrefix opt "uid=" = true ∧ opt ≠ "uid=0") ∨
            (strHasPrefix opt "gid=" = true ∧ opt ≠ "gid=0"))
         ∨ ∃ cg, c.cgroups = some cg ∧ ∃ r, cg.resources = some r ∧
             (r.memory ≠ 0 ∨ r.memoryReservation ≠ 0 ∨ r.memorySwap ≠ 0 ∨
              r.kernelMemory ≠ 0 ∨ r.cpuShares ≠ 0 ∨ r.cpuQuota ≠ 0 ∨
              r.cpuPeriod ≠ 0 ∨ r.cpusetCpus ≠ "" ∨ r.cpusetMems ≠ "" ∨
              r.pidsLimit ≠ 0 ∨ r.blkioWeight ≠ 0 ∨ r.freezerState ≠ "" ∨
              r.oomKillDisable ≠ false ∨ r.memorySwappiness ≠ 0))) := by
  refine ⟨rfl, fun c => ?_⟩
  have hm : (rootlessMountCheck c).isSome = true ↔
      ∃ m ∈ c.mounts, ∃ opt ∈ strSplitOnChar ',' m.data,
        (strHasPrefix opt "uid=" = true ∧ opt ≠ "uid=0") ∨
        (strHasPrefix opt "gid=" = true ∧ opt ≠ "gid=0") := by
    simp [rootlessMountCheck, firstErr_isSome_iff, mountOptCheck_isSome]
  cases h : rootlessMountCheck c with
  | some e =>
    have hmm := hm.mp (by simp [h])
    simp only [rootlessValidate, h, Option.isSome_some, true_iff]
    exact Or.inl hmm
  | none =>
    simp only [rootlessValidate, h, rootlessCgroupCheck_isSome]
    constructor
    · exact fun hx => Or.inr hx
    · rintro (hx | hx)
      · exact absurd (hm.mpr hx) (by simp [h])
      · exact hx

/-- C5 witness: the iff evaluated at concrete inputs — a clean rootless
configuration passes, a `uid=5` mount option fails, non-default memory
limits fail, and device-only rules pass. -/
theorem c5_rootlessValidate_iff_witness :
    (rootlessValidate (some rootlessDemoCfg)).isSome = false
  ∧ (rootlessValidate (some { mounts := [{ data := "nosuid,uid=5" }] })).isSome = true := by
  constructor
  · have h := ((c5_rootlessValidate_iff).2 rootlessDemoCfg).not
    simp only [Bool.not_eq_true] at h ⊢
    apply h.mpr
    decide
  · exact ((c5_rootlessValidate_iff).2 { mounts := [{ data := "nosuid,uid=5" }] }).mpr
      (Or.inl (by decide))

/-! ## C6 -/

/-- C6 (confirmed): for the rootless cgroup manager, `Apply` returns nil
for every pid when no explicit cgroup path mapping is present (including
when the cgroup configuration itself is absent) and an error for every pid
when a non-nil path mapping is present; `Freeze` returns an error for every
state; `Set` and `Destroy` always return nil (and, being pure, perform no
action). -/
theorem c6_rootless_manager_ops (m : RlManager) :
    (∀ pid : Int, m.cgroups = none → m.applyPid pid = none)
  ∧ (∀ pid : Int, ∀ cg, m.cgroups = some cg → cg.paths = none → m.applyPid pid = none)
  ∧ (∀ pid : Int, ∀ cg ps, m.cgroups = some cg → cg.paths = some ps →
      (m.applyPid pid).isSome = true)
  ∧ (∀ st : FreezerState, (m.freeze st).isSome = true)
  ∧ (∀ c : Config, m.setCfg c = none)
  ∧ m.destroy = none := by
  refine ⟨?_, ?_, ?_, ?_, ?_, rfl⟩ <;> intros <;>
    simp_all [RlManager.applyPid, RlManager.freeze, RlManager.setCfg]

/-- C6 witness: the manager operations evaluated at concrete managers. -/
theorem c6_rootless_manager_ops_witness :
    RlManager.applyPid { cgroups := none } 42 = none
  ∧ RlManager.applyPid { cgroups := some { paths := none } } 42 = none
  ∧ (RlManager.applyPid { cgroups := some { paths := some [("devices", "/sys/fs/cgroup/devices/x")] } } 42).isSome = true
  ∧ (RlManager.freeze { cgroups := none } FreezerState.frozen).isSome = true
  ∧ RlManager.setCfg { cgroups := none } rootlessDemoCfg = none := by
  refine ⟨(c6_rootless_manager_ops _).1 42 rfl,
          (c6_rootless_manager_ops _).2.1 42 _ rfl rfl,
          (c6_rootless_manager_ops _).2.2.1 42 _ _ rfl rfl,
          (c6_rootless_manager_ops _).2.2.2.1 _,
          (c6_rootless_manager_ops _).2.2.2.2.1 _⟩

/-! ## C2 -/

/-- C2 (amended): for every run of `StartInitialization` that parses the
init-pipe descriptor from its environment and does not replace its process
image, the failure or panic is recovered and written to the pipe as a final
structured system-error message — preceded by the preliminary sync token
exactly when the constructed initer is the standard variant — and the pipe
is closed; a run whose init-pipe environment value fails to parse returns
before the deferred handlers are installed, writing and closing nothing. -/
theorem c2_startInitialization_protocol (run : InitRun) (fd : Nat)
    (h1 : run.pipeFdParse = some fd)
    (h2 : (startInitialization run).execed = false) :
    (startInitialization run).closed = true ∧
    (startInitialization run).written =
      syncPrefix run ++ [PipeMsg.systemError (initFinalErr run)] := by
  obtain ⟨p, ir, io⟩ := run
  cases h1
  cases ir with
  | error e => simp [startInitialization, syncPrefix, initFinalErr]
  | ok k =>
    cases io with
    | execed => simp [startInitialization] at h2
    | failed m => cases k <;> simp [startInitialization, syncPrefix, initFinalErr]
    | panicked m => cases k <;> simp [startInitialization, syncPrefix, initFinalErr]

/-- C2 counterexample: a run whose `_LIBCONTAINER_INITPIPE` value fails to
parse fails before exec, yet writes no message over the channel and never
closes it — refuting "written over the handoff channel ... and the channel
is closed on every exit path". -/
theorem c2_startInitialization_counterexample :
    (startInitialization
      { pipeFdParse := none
      , initerResult := Except.error "convert error"
      , initOutcome := InitOutcome.failed "x" }).execed = false
  ∧ (startInitialization
      { pipeFdParse := none
      , initerResult := Except.error "convert error"
      , initOutcome := InitOutcome.failed "x" }).written = []
  ∧ (startInitialization
      { pipeFdParse := none
      , initerResult := Except.error "convert error"
      , initOutcome := InitOutcome.failed "x" }).closed = false := by
  decide

/-- C2 witness: a standard-init run that fails with "boom" writes the sync
token then the system error, and closes the pipe. -/
theorem c2_startInitialization_protocol_witness :
    (startInitialization
      { pipeFdParse := some 5
      , initerResult := Except.ok IniterKind.standard
      , initOutcome := InitOutcome.failed "boom" }).closed = true
  ∧ (startInitialization
      { pipeFdParse := some 5
      , initerResult := Except.ok IniterKind.standard
      , initOutcome := InitOutcome.failed "boom" }).written =
        [PipeMsg.syncToken, PipeMsg.systemError "boom"] := by
  have h := c2_startInitialization_protocol
    { pipeFdParse := some 5
    , initerResult := Except.ok IniterKind.standard
    , initOutcome := InitOutcome.failed "boom" } 5 rfl rfl
  simpa [syncPrefix, initFinalErr] using h

/-! ## Create characterization -/

theorem validateID_none (id : String)
    (h1 : idRegexMatch id = true) (h2 : id.data.length ≤ 1024) :
    validateID id = none := by
  unfold validateID
  rw [if_neg (by simp [h1] : ¬ ¬ idRegexMatch id = true), if_neg (Nat.not_lt.mpr h2)]

/-- A `Create` call that passes every validation is fully determined by
whether the container directory already exists: an `IdInUse` error leaving
everything unchanged, or a fresh container with the directory recorded and
the manager constructor overwritten to rootless exactly for a rootless
configuration. -/
theorem createC_eq (V : Config → Bool) (l : Factory) (fs : FSState)
    (euid egid : Int) (id : String) (config : Config)
    (h0 : l.root ≠ "") (hid : validateID id = none) (hV : V config = true)
    (rl : Bool) (hr : isRootless euid egid config = Except.ok rl)
    (hrv : rl = true → rootlessValidate (some config) = none) :
    createC V l fs euid egid id config =
      if l.root ++ "/" ++ id ∈ fs then
        ⟨Except.error ErrCause.idInUse, l, fs⟩
      else
        ⟨Except.ok
          { id := id
          , root := l.root ++ "/" ++ id
          , config := config
          , managerKind := if rl then ManagerKind.rootless else l.newCgroupsManager
          , rootless := rl }
        , if rl then { l with newCgroupsManager := ManagerKind.rootless } else l
        , (l.root ++ "/" ++ id) :: fs⟩ := by
  unfold createC
  cases rl with
  | false => simp [h0, hid, hV, hr]
  | true => simp [h0, hid, hV, hr, hrv rfl]

/-- Whenever `Create` returns an error — in particular on every id, config
or rootless validation failure — the filesystem is left unchanged. -/
theorem createC_error_no_mutation (V : Config → Bool) (l : Factory) (fs : FSState)
    (euid egid : Int) (id : String) (config : Config) (e : ErrCause)
    (he : (createC V l fs euid egid id config).res = Except.error e) :
    (createC V l fs euid egid id config).fs = fs ∧
    (createC V l fs euid egid id config).factory = l := by
  by_cases h0 : l.root = ""
  · simp [createC, h0]
  · cases hv : validateID id with
    | some e' => simp [createC, h0, hv]
    | none =>
      by_cases hV : V config = true
      · cases hr : isRootless euid egid config with
        | error e' => simp [createC, h0, hv, hV, hr]
        | ok rl =>
          by_cases hrv : rl = true ∧ (rootlessValidate (some config)).isSome = true
          · simp [createC, h0, hv, hV, hr, hrv]
          · by_cases hex : (l.root ++ "/" ++ id) ∈ fs
            · simp [createC, h0, hv, hV, hr, hrv, hex]
            · simp [createC, h0, hv, hV, hr, hrv, hex] at he
      · simp [createC, h0, hv, hV]

/-- What a successful `Create` implies: the validations passed, the
container records the rootless flag and the manager constructor the factory
now holds, and the directory was recorded. -/
theorem createC_ok_inv (V : Config → Bool) (l : Factory) (fs : FSState)
    (euid egid : Int) (id : String) (config : Config) (cont : ContainerModel)
    (hok : (createC V l fs euid egid id config).res = Except.ok cont) :
    ∃ rl, isRootless euid egid config = Except.ok rl ∧
      cont.rootless = rl ∧
      cont.managerKind = (createC V l fs euid egid id config).factory.newCgroupsManager ∧
      (createC V l fs euid egid id config).factory =
        (if rl = true then { l with newCgroupsManager := ManagerKind.rootless } else l) ∧
      (createC V l fs euid egid id config).fs = (l.root ++ "/" ++ id) :: fs ∧
      (l.root ++ "/" ++ id) ∉ fs := by
  by_cases h0 : l.root = ""
  · simp [createC, h0] at hok
  · cases hv : validateID id with
    | some e' => simp [createC, h0, hv] at hok
    | none =>
      by_cases hV : V config = true
      · cases hr : isRootless euid egid config with
        | error e' => simp [createC, h0, hv, hV, hr] at hok
        | ok rl =>
          by_cases hrv : rl = true ∧ (rootlessValidate (some config)).isSome = true
          · simp [createC, h0, hv, hV, hr, hrv] at hok
          · by_cases hex : (l.root ++ "/" ++ id) ∈ fs
            · simp [createC, h0, hv, hV, hr, hrv, hex] at hok
            · have hrv' : rl = true → rootlessValidate (some config) = none := by
                intro hrl
                rcases hend : rootlessValidate (some config) with - | e'
                · rfl
                · exact absurd ⟨hrl, by simp [hend]⟩ hrv
              have heq := createC_eq V l fs euid egid id config h0 hv hV rl hr hrv'
              rw [heq] at hok ⊢
              simp only [hex, if_false] at hok ⊢
              refine ⟨rl, rfl, ?_⟩
              have hok' : _ = cont := Except.ok.inj hok
              subst hok'
              cases rl <;> simp [hex]
      · simp [createC, h0, hv, hV] at hok

/-- `Create` never downgrades a rootless manager constructor: starting from
a factory already set to the rootless variant, the factory after any
`Create` call still holds the rootless variant. -/
theorem createC_manager_mono (V : Config → Bool) (f : Factory) (fs : FSState)
    (euid egid : Int) (id : String) (config : Config)
    (h : f.newCgroupsManager = ManagerKind.rootless) :
    (createC V f fs euid egid id config).factory.newCgroupsManager = ManagerKind.rootless := by
  cases hres : (createC V f fs euid egid id config).res with
  | error e =>
    rw [(createC_error_no_mutation V f fs euid egid id config e hres).2]
    exact h
  | ok cont =>
    obtain ⟨rl, -, -, -, hfac, -, -⟩ := createC_ok_inv V f fs euid egid id config cont hres
    rw [hfac]
    cases rl <;> simp [h]

/-! ## C3 -/

/-- C3 (amended): provided the factory root is non-empty, every id that
violates the id pattern or exceeds length 1024 makes `Create` return
`InvalidIdFormat` (with an empty root, `Create` returns `ConfigInvalid`
before looking at the id); and every `Create` call that returns an error —
in particular every id, config or rootless validation failure — leaves the
filesystem unchanged. -/
theorem c3_create_validation (V : Config → Bool) (l : Factory) (fs : FSState)
    (euid egid : Int) (id : String) (config : Config) :
    (l.root ≠ "" → (idRegexMatch id = false ∨ id.data.length > 1024) →
      (createC V l fs euid egid id config).res = Except.error ErrCause.invalidIdFormat)
  ∧ (l.root = "" →
      (createC V l fs euid egid id config).res = Except.error ErrCause.configInvalid)
  ∧ (∀ e, (createC V l fs euid egid id config).res = Except.error e →
      (createC V l fs euid egid id config).fs = fs) := by
  refine ⟨?_, ?_, ?_⟩
  · intro h0 hbad
    have hv : validateID id = some ErrCause.invalidIdFormat := by
      unfold validateID
      rcases hbad with h | h
      · simp [h]
      · split_ifs <;> simp_all
    simp [createC, h0, hv]
  · intro h0
    simp [createC, h0]
  · intro e he
    exact (createC_error_no_mutation V l fs euid egid id config e he).1

/-- C3 counterexample: on a factory with an empty root, `Create` with an
id violating the pattern returns `ConfigInvalid` ("invalid root"), not
`InvalidIdFormat` — refuting "for every id that violates the allowed id
pattern ..., Factory.Create returns InvalidIdFormat". -/
theorem c3_create_counterexample :
    idRegexMatch "!!!" = false
  ∧ (createC (fun _ => true) ⟨"", ManagerKind.cgroupfs⟩ [] 0 0 "!!!" plainCfg).res =
      Except.error ErrCause.configInvalid
  ∧ (createC (fun _ => true) ⟨"", ManagerKind.cgroupfs⟩ [] 0 0 "!!!" plainCfg).res ≠
      Except.error ErrCause.invalidIdFormat := by
  decide

/-- C3 witness: a bad id on a properly rooted factory yields
`InvalidIdFormat` and no filesystem change. -/
theorem c3_create_validation_witness :
    (createC (fun _ => true) ⟨"/run/demo", ManagerKind.cgroupfs⟩ [] 0 0 "!!!" plainCfg).res =
      Except.error ErrCause.invalidIdFormat
  ∧ (createC (fun _ => true) ⟨"/run/demo", ManagerKind.cgroupfs⟩ [] 0 0 "!!!" plainCfg).fs = [] := by
  constructor
  · exact (c3_create_validation (fun _ => true) ⟨"/run/demo", ManagerKind.cgroupfs⟩ [] 0 0 "!!!" plainCfg).1
      (by decide) (Or.inl (by decide))
  · exact (c3_create_validation (fun _ => true) ⟨"/run/demo", ManagerKind.cgroupfs⟩ [] 0 0 "!!!" plainCfg).2.2
      ErrCause.invalidIdFormat
      ((c3_create_validation (fun _ => true) ⟨"/run/demo", ManagerKind.cgroupfs⟩ [] 0 0 "!!!" plainCfg).1
        (by decide) (Or.inl (by decide)))

/-! ## C4 -/

/-- C4 (amended): provided the factory root is non-empty, for every id
matching the pattern with length at most 1024 and every configuration
passing structural, rootless-determination and (when rootless) rootless
validation, `Create` succeeds if and only if the container directory
`<factory root>/<id>` does not exist beforehand; when it exists `Create`
returns `IdInUse`, and in particular a second `Create` with the same id
after a successful one returns `IdInUse`. -/
theorem c4_create_succeeds_iff (V : Config → Bool) (l : Factory) (fs : FSState)
    (euid egid : Int) (id : String) (config : Config)
    (h0 : l.root ≠ "") (h1 : idRegexMatch id = true) (h2 : id.data.length ≤ 1024)
    (hV : V config = true) (rl : Bool) (hr : isRootless euid egid config = Except.ok rl)
    (hrv : rl = true → rootlessValidate (some config) = none) :
    ((∃ cont, (createC V l fs euid egid id config).res = Except.ok cont) ↔
      (l.root ++ "/" ++ id) ∉ fs)
  ∧ ((l.root ++ "/" ++ id) ∈ fs →
      (createC V l fs euid egid id config).res = Except.error ErrCause.idInUse)
  ∧ (∀ cont, (createC V l fs euid egid id config).res = Except.ok cont →
      (createC V (createC V l fs euid egid id config).factory
        (createC V l fs euid egid id config).fs euid egid id config).res =
        Except.error ErrCause.idInUse) := by
  have hid := validateID_none id h1 h2
  have heq := createC_eq V l fs euid egid id config h0 hid hV rl hr hrv
  refine ⟨?_, ?_, ?_⟩
  · by_cases hex : (l.root ++ "/" ++ id) ∈ fs <;> simp [heq, hex]
  · intro hex
    simp [heq, hex]
  · intro cont hok
    by_cases hex : (l.root ++ "/" ++ id) ∈ fs
    · rw [heq] at hok
      simp [hex] at hok
    · rw [heq]
      simp only [hex, if_false]
      have hroot : (if rl = true then { l with newCgroupsManager := ManagerKind.rootless } else l).root = l.root := by
        cases rl <;> rfl
      have heq2 := createC_eq V
        (if rl = true then { l with newCgroupsManager := ManagerKind.rootless } else l)
        ((l.root ++ "/" ++ id) :: fs) euid egid id config
        (by rw [hroot]; exact h0) hid hV rl hr hrv
      rw [heq2, if_pos]
      rw [hroot]
      exact List.mem_cons_self _ _

/-- C4 counterexample: on a factory with an empty root, a pattern-matching
id and a valid configuration fail even though no container directory
exists — refuting "Create succeeds if and only if no container directory
exists beforehand" as quantified over every factory. -/
theorem c4_create_counterexample :
    idRegexMatch "abc" = true
  ∧ isRootless 0 0 plainCfg = Except.ok false
  ∧ ("" ++ "/" ++ "abc") ∉ ([] : FSState)
  ∧ (createC (fun _ => true) ⟨"", ManagerKind.cgroupfs⟩ [] 0 0 "abc" plainCfg).res =
      Except.error ErrCause.configInvalid := by
  decide

/-- C4 witness: with root `/run/demo`, id `c1` and the demo rootless
configuration, `Create` succeeds on an empty filesystem and returns
`IdInUse` when the directory exists. -/
theorem c4_create_succeeds_iff_witness :
    (∃ cont, (createC (fun _ => true) ⟨"/run/demo", ManagerKind.cgroupfs⟩ [] 1000 1000 "c1"
        rootlessDemoCfg).res = Except.ok cont)
  ∧ (createC (fun _ => true) ⟨"/run/demo", ManagerKind.cgroupfs⟩ ["/run/demo/c1"] 1000 1000 "c1"
        rootlessDemoCfg).res = Except.error ErrCause.idInUse := by
  constructor
  · exact (c4_create_succeeds_iff (fun _ => true) ⟨"/run/demo", ManagerKind.cgroupfs⟩ [] 1000 1000 "c1"
      rootlessDemoCfg (by decide) (by decide) (by decide) (by decide) true (by decide)
      (fun _ => by decide)).1.mpr (by decide)
  · exact (c4_create_succeeds_iff (fun _ => true) ⟨"/run/demo", ManagerKind.cgroupfs⟩ ["/run/demo/c1"] 1000 1000 "c1"
      rootlessDemoCfg (by decide) (by decide) (by decide) (by decide) true (by decide)
      (fun _ => by decide)).2.1 (by decide)

/-! ## C9 -/

theorem loadC_ok_manager (f : Factory) (states : List (String × PersistedState))
    (id : String) (cont : ContainerModel)
    (h : loadC f states id = Except.ok cont) :
    cont.managerKind = f.newCgroupsManager := by
  by_cases h0 : f.root = ""
  · simp [loadC, h0] at h
  · cases hl : (states.lookup (f.root ++ "/" ++ id)) with
    | none => simp [loadC, h0, hl] at h
    | some st =>
      simp only [loadC, h0, if_false, hl] at h
      cases Except.ok.inj h
      rfl

/-- C9 (amended): when `Create` succeeds on a configuration for which
`isRootless` reports true, it overwrites the factory's cgroup-manager
constructor with the rootless variant, the returned container carries it,
and the mutation persists: every later `Create` on that factory leaves the
constructor rootless and every container a later `Create` or `Load`
returns — including for non-rootless configurations — carries the rootless
manager.  (A `Create` call that fails, e.g. with `IdInUse`, does not
mutate the factory.) -/
theorem c9_create_rootless_persists (V : Config → Bool) (l : Factory) (fs : FSState)
    (euid egid : Int) (id : String) (config : Config) (cont : ContainerModel)
    (hr : isRootless euid egid config = Except.ok true)
    (hok : (createC V l fs euid egid id config).res = Except.ok cont) :
    cont.managerKind = ManagerKind.rootless
  ∧ (createC V l fs euid egid id config).factory.newCgroupsManager = ManagerKind.rootless
  ∧ (∀ V₂ fs₂ euid₂ egid₂ id₂ config₂,
      (createC V₂ (createC V l fs euid egid id config).factory fs₂ euid₂ egid₂ id₂
          config₂).factory.newCgroupsManager = ManagerKind.rootless
      ∧ ∀ cont₂,
          (createC V₂ (createC V l fs euid egid id config).factory fs₂ euid₂ egid₂ id₂
            config₂).res = Except.ok cont₂ →
          cont₂.managerKind = ManagerKind.rootless)
  ∧ (∀ states id₃ cont₃,
      loadC (createC V l fs euid egid id config).factory states id₃ = Except.ok cont₃ →
      cont₃.managerKind = ManagerKind.rootless) := by
  obtain ⟨rl, hr', hrl, hmk, hfac, -, -⟩ := createC_ok_inv V l fs euid egid id config cont hok
  have hrt : rl = true := by
    rw [hr] at hr'
    exact (Except.ok.inj hr').symm
  subst hrt
  have hman : (createC V l fs euid egid id config).factory.newCgroupsManager = ManagerKind.rootless := by
    rw [hfac]
    simp
  refine ⟨by rw [hmk, hman], hman, ?_, ?_⟩
  · intro V₂ fs₂ euid₂ egid₂ id₂ config₂
    refine ⟨createC_manager_mono V₂ _ fs₂ euid₂ egid₂ id₂ config₂ hman, ?_⟩
    intro cont₂ hok₂
    obtain ⟨rl₂, -, -, hmk₂, -, -, -⟩ := createC_ok_inv V₂ _ fs₂ euid₂ egid₂ id₂ config₂ cont₂ hok₂
    rw [hmk₂]
    exact createC_manager_mono V₂ _ fs₂ euid₂ egid₂ id₂ config₂ hman
  · intro states id₃ cont₃ hload
    rw [loadC_ok_manager _ states id₃ cont₃ hload]
    exact hman

/-- C9 counterexample: a `Create` call with a rootless configuration that
fails with `IdInUse` does not overwrite the factory's cgroup-manager
constructor — refuting "when Factory.Create is called with a configuration
for which isRootless reports true, it overwrites ..." for failing calls. -/
theorem c9_create_counterexample :
    isRootless 1000 1000 rootlessDemoCfg = Except.ok true
  ∧ (createC (fun _ => true) ⟨"/run/demo", ManagerKind.cgroupfs⟩ ["/run/demo/c1"] 1000 1000 "c1"
      rootlessDemoCfg).res = Except.error ErrCause.idInUse
  ∧ (createC (fun _ => true) ⟨"/run/demo", ManagerKind.cgroupfs⟩ ["/run/demo/c1"] 1000 1000 "c1"
      rootlessDemoCfg).factory.newCgroupsManager = ManagerKind.cgroupfs := by
  decide

/-- C9 witness: after a successful rootless `Create`, a second `Create`
with a non-rootless configuration still leaves the factory's constructor
rootless. -/
theorem c9_create_rootless_persists_witness :
    (createC (fun _ => true)
      (createC (fun _ => true) ⟨"/run/demo", ManagerKind.cgroupfs⟩ [] 1000 1000 "c1"
        rootlessDemoCfg).factory
      [] 0 0 "c2" plainCfg).factory.newCgroupsManager = ManagerKind.rootless := by
  have h := c9_create_rootless_persists (fun _ => true) ⟨"/run/demo", ManagerKind.cgroupfs⟩ []
    1000 1000 "c1" rootlessDemoCfg
    { id := "c1", root := "/run/demo/c1", config := rootlessDemoCfg
    , managerKind := ManagerKind.rootless, rootless := true }
    (by decide) (by decide)
  exact (h.2.2.1 (fun _ => true) [] 0 0 "c2" plainCfg).1

/-! ## C8 -/

/-- The row an entry contributes when the listing does not abort: the
placeholder for a load failure, the full row otherwise. -/
def rowOf (e : DirEntry) : Row :=
  match e.loadRes with
  | Except.error _ => placeholderRow e
  | Except.ok lc =>
    match lc.statusRes, lc.stateRes with
    | Except.ok st, Except.ok ps => fullRow e st ps
    | _, _ => placeholderRow e

theorem getContainers_eq (entries : List DirEntry)
    (h : ∀ e ∈ entries, e.isDir = true → ∀ lc, e.loadRes = Except.ok lc →
      (∃ s, lc.statusRes = Except.ok s) ∧ (∃ ps, lc.stateRes = Except.ok ps)) :
    getContainers entries =
      Except.ok ((entries.filter (fun e => e.isDir)).map rowOf) := by
  induction entries with
  | nil => rfl
  | cons e rest ih =>
    have hrest := ih (fun x hx h1 lc h2 => h x (List.mem_cons_of_mem _ hx) h1 lc h2)
    by_cases hd : e.isDir = true
    · cases hl : e.loadRes with
      | error err =>
        simp [getContainers, hd, hl, hrest, rowOf, List.filter_cons]
      | ok lc =>
        obtain ⟨⟨s, hs⟩, ⟨ps, hps⟩⟩ := h e (List.mem_cons_self _ _) hd lc hl
        simp [getContainers, hd, hl, hs, hps, hrest, rowOf, List.filter_cons]
    · have hd' : e.isDir = false := by
        cases he : e.isDir
        · rfl
        · exact absurd he hd
      simp [getContainers, hd', hrest, List.filter_cons]

/-- C8 (confirmed): when every directory entry either fails to load or
loads with readable status and state, the listing returns one row per
directory entry — so a root with N loadable containers and one unloadable
container yields N+1 rows — and every entry whose load fails is reported
as the placeholder row with status "-" and pid -1 rather than aborting the
listing. -/
theorem c8_listing_degrades (entries : List DirEntry)
    (h : ∀ e ∈ entries, e.isDir = true → ∀ lc, e.loadRes = Except.ok lc →
      (∃ s, lc.statusRes = Except.ok s) ∧ (∃ ps, lc.stateRes = Except.ok ps)) :
    (getContainers entries =
      Except.ok ((entries.filter (fun e => e.isDir)).map rowOf))
  ∧ (((entries.filter (fun e => e.isDir)).map rowOf).length =
      (entries.filter (fun e => e.isDir)).length)
  ∧ (∀ e : DirEntry, (∃ err, e.loadRes = Except.error err) →
      rowOf e = placeholderRow e ∧ (rowOf e).status = "-" ∧ (rowOf e).pid = -1) := by
  refine ⟨getContainers_eq entries h, List.length_map _ _, ?_⟩
  rintro e ⟨err, herr⟩
  simp [rowOf, herr, placeholderRow]

/-- A listing fixture: two loadable containers around one whose load
fails, plus a non-directory entry that is skipped. -/
def demoEntries : List DirEntry :=
  [ { name := "c1", isDir := true, uid := 1000, lookupName := some "alice"
    , loadRes := Except.ok
        { statusRes := Except.ok "running"
        , stateRes := Except.ok
            { stateID := "c1", initProcessPid := 123, initProcessStartTime := "7"
            , config := {}, rootless := true, created := "2017-01-01" } } }
  , { name := "broken", isDir := true, uid := 0, lookupName := some "root"
    , loadRes := Except.error "permission denied" }
  , { name := "c2", isDir := true, uid := 1001, lookupName := some "bob"
    , loadRes := Except.ok
        { statusRes := Except.ok "stopped"
        , stateRes := Except.ok
            { stateID := "c2", initProcessPid := 456, initProcessStartTime := "9"
            , config := {}, rootless := false, created := "2017-01-02" } } }
  , { name := "state.json", isDir := false, uid := 0, lookupName := some "root"
    , loadRes := Except.error "not a directory" } ]

/-- C8 witness: the fixture lists as three rows — two full rows and the
placeholder (status "-", pid -1) for the unloadable one. -/
theorem c8_listing_degrades_witness :
    getContainers demoEntries =
      Except.ok
        [ { id := "c1", pid := 123, status := "running", bundle := ""
          , created := "2017-01-01", annots := [], owner := "alice" }
        , { id := "broken", pid := -1, status := "-", bundle := "-"
          , created := "", annots := [], owner := "root" }
        , { id := "c2", pid := 456, status := "stopped", bundle := ""
          , created := "2017-01-02", annots := [], owner := "bob" } ] := by
  rw [(c8_listing_degrades demoEntries (by
    intro e he h1 lc h2
    simp only [demoEntries, List.mem_cons, List.not_mem_nil, or_false] at he
    rcases he with rfl | rfl | rfl | rfl
    · cases Except.ok.inj h2
      exact ⟨⟨_, rfl⟩, ⟨_, rfl⟩⟩
    · exact absurd h2 (by simp)
    · cases Except.ok.inj h2
      exact ⟨⟨_, rfl⟩, ⟨_, rfl⟩⟩
    · simp at h1)).1]
  decide

/-! ## C10 -/

/-- C10 (confirmed): for every input spec and invoking effective UID/GID,
the spec produced by `ToRootless` contains a user-namespace entry, exactly
one UID mapping (host = effective UID, container 0, size 1), exactly one
GID mapping (host = effective GID, container 0, size 1), nil resource
limits, and no mount option with a `uid=` or `gid=` prefix; consequently
its mappings pass the shape (`badMapping`) and ownership (root-mapping
lookup) checks of `isRootless`, every remaining mount option passes the
rootless validator's per-option test, and absent resources pass the
rootless validator's cgroup check. -/
theorem c10_toRootless_props (euid egid : Nat) (s : OciSpec) :
    (toRootless euid egid s).linux.namespaces.contains "user" = true
  ∧ (toRootless euid egid s).linux.uidMappings =
      [{ hostID := euid, containerID := 0, size := 1 }]
  ∧ (toRootless euid egid s).linux.gidMappings =
      [{ hostID := egid, containerID := 0, size := 1 }]
  ∧ (toRootless euid egid s).linux.resources = none
  ∧ (∀ m ∈ (toRootless euid egid s).mounts, ∀ o ∈ m.options,
      strHasPrefix o "uid=" = false ∧ strHasPrefix o "gid=" = false)
  ∧ badMapping ((toRootless euid egid s).linux.uidMappings.map toIDMap) = false
  ∧ badMapping ((toRootless euid egid s).linux.gidMappings.map toIDMap) = false
  ∧ hostIDFromMapping 0 ((toRootless euid egid s).linux.uidMappings.map toIDMap) =
      some (Int.ofNat euid)
  ∧ hostIDFromMapping 0 ((toRootless euid egid s).linux.gidMappings.map toIDMap) =
      some (Int.ofNat egid)
  ∧ (∀ m ∈ (toRootless euid egid s).mounts, ∀ o ∈ m.options, mountOptCheck o = none)
  ∧ rootlessCgroupCheck none = none := by
  have hopts : ∀ m ∈ (toRootless euid egid s).mounts, ∀ o ∈ m.options,
      strHasPrefix o "uid=" = false ∧ strHasPrefix o "gid=" = false := by
    intro m hm o ho
    simp only [toRootless, List.mem_map] at hm
    obtain ⟨m₀, -, hm₀⟩ := hm
    subst hm₀
    simp only [List.mem_filter, decide_eq_true_eq, Bool.not_eq_true] at ho
    exact ⟨ho.2.2, ho.2.1⟩
  refine ⟨?_, rfl, rfl, rfl, hopts, ?_, ?_, ?_, ?_, ?_, rfl⟩
  · simp [toRootless]
  · simp [toRootless, badMapping, toIDMap]
  · simp [toRootless, badMapping, toIDMap]
  · simp [toRootless, hostIDFromMapping, toIDMap]
  · simp [toRootless, hostIDFromMapping, toIDMap]
  · intro m hm o ho
    obtain ⟨h1, h2⟩ := hopts m hm o ho
    simp [mountOptCheck, h1, h2]

/-- An example spec exercising `ToRootless`: `uid=`/`gid=` mount options
to strip, no user namespace yet, and resource limits to discard. -/
def demoSpec : OciSpec :=
  { mounts :=
      [ { destination := "/dev/pts", mountType := "devpts", source := "devpts"
        , options := ["nosuid", "uid=5", "gid=5", "mode=620"] } ]
  , linux :=
      { namespaces := ["pid", "mount"]
      , uidMappings := []
      , gidMappings := []
      , resources := some { memory := 7 } } }

/-- C10 witness: `ToRootless` on the example spec under invoking user
1000:1000. -/
theorem c10_toRootless_props_witness :
    (toRootless 1000 1000 demoSpec).linux.uidMappings =
      [{ hostID := 1000, containerID := 0, size := 1 }]
  ∧ hostIDFromMapping 0 ((toRootless 1000 1000 demoSpec).linux.uidMappings.map toIDMap) =
      some (Int.ofNat 1000)
  ∧ mountOptCheck "nosuid" = none := by
  have h := c10_toRootless_props 1000 1000 demoSpec
  refine ⟨h.2.1, h.2.2.2.2.2.2.2.1, ?_⟩
  exact h.2.2.2.2.2.2.2.2.2.1
    { destination := "/dev/pts", mountType := "devpts", source := "devpts"
    , options := ["nosuid", "mode=620"] } (by decide) "nosuid" (by decide)

end Runc


